import Mathlib

/-!
Verification development for the auto_testing backend (`src/backend/server.js`),
a four-stage QA-audit pipeline: audit capture (Playwright), test-plan
generation, design comparison (Figma), and report synthesis, all sharing one
generation provider with an ordered model-fallback chain.

The JavaScript is shallowly embedded: external collaborators (the generative
model, the Figma API, the browser) are oracles supplying the outcome of each
outbound call; the repository's own control flow, string processing, and data
shaping are translated function by function. JavaScript truthiness, `||`,
`JSON.parse` / `JSON.stringify`, `String.prototype.replace` (global) and
`trim` are modelled explicitly below.
-/

set_option linter.unusedVariables false
set_option maxRecDepth 10000

namespace AutoQA

/-- JavaScript truthiness of a possibly-absent string: `undefined`/`null` and
the empty string are falsy, every other string truthy (models `!s` / `if (s)`). -/
def jsTruthyOpt : Option String → Bool
  | none => false
  | some s => !s.isEmpty

/-- JavaScript `a || b` on possibly-absent strings: yields `a` when truthy,
otherwise `b` (models `figmaToken || process.env.FIGMA_ACCESS_TOKEN`). -/
def jsOr (a b : Option String) : Option String :=
  if jsTruthyOpt a then a else b

/-- The `\x7b` character, named so object braces never appear inside string
literals of this file. -/
def lbrace : Char := Char.ofNat 123

/-- The `\x7d` character. -/
def rbrace : Char := Char.ofNat 125

/-- JSON values as produced by `JSON.parse` (numbers restricted to integers,
which covers every payload this repository produces or consumes). -/
inductive Json where
  | null
  | bool (b : Bool)
  | num (n : Int)
  | str (s : String)
  | arr (elems : List Json)
  | obj (fields : List (String × Json))
deriving Repr

/-- JSON whitespace skipping, as accepted by `JSON.parse`. -/
def skipWs : List Char → List Char
  | [] => []
  | c :: cs =>
    if c = ' ' ∨ c = '\n' ∨ c = '\t' ∨ c = '\r' then skipWs cs else c :: cs

/-- Decoding of a single-character JSON escape (`\u` escapes unmodelled — no
payload in this repository uses them). -/
def escChar (e : Char) : Option Char :=
  if e = '"' then some '"'
  else if e = '\\' then some '\\'
  else if e = '/' then some '/'
  else if e = 'n' then some '\n'
  else if e = 't' then some '\t'
  else if e = 'r' then some '\r'
  else if e = 'b' then some (Char.ofNat 8)
  else if e = 'f' then some (Char.ofNat 12)
  else none

/-- Body of a JSON string literal, consumed after the opening quote; returns
the decoded characters and the rest of the input. -/
def parseStringBody : List Char → Option (List Char × List Char)
  | [] => none
  | c :: cs =>
    if c = '"' then some ([], cs)
    else if c = '\\' then
      match cs with
      | [] => none
      | e :: cs2 =>
        match escChar e with
        | none => none
        | some ch => (parseStringBody cs2).map (fun p => (ch :: p.1, p.2))
    else (parseStringBody cs).map (fun p => (c :: p.1, p.2))

/-- Decimal digit run, accumulating into `acc`. -/
def parseDigits : List Char → Nat → Nat × List Char
  | [], acc => (acc, [])
  | c :: cs, acc =>
    if c.isDigit then parseDigits cs (acc * 10 + (c.toNat - 48)) else (acc, c :: cs)

mutual

/-- One JSON value (fuelled; fuel bounds nesting depth). Models `JSON.parse`'s
grammar on the integer-numbered fragment. -/
def parseVal : Nat → List Char → Option (Json × List Char)
  | 0, _ => none
  | fuel + 1, cs0 =>
    match skipWs cs0 with
    | [] => none
    | c :: r =>
      if c = 'n' then
        match r with
        | 'u' :: 'l' :: 'l' :: r2 => some (Json.null, r2)
        | _ => none
      else if c = 't' then
        match r with
        | 'r' :: 'u' :: 'e' :: r2 => some (Json.bool true, r2)
        | _ => none
      else if c = 'f' then
        match r with
        | 'a' :: 'l' :: 's' :: 'e' :: r2 => some (Json.bool false, r2)
        | _ => none
      else if c = '"' then
        (parseStringBody r).map (fun p => (Json.str (String.mk p.1), p.2))
      else if c = '[' then
        match skipWs r with
        | [] => none
        | c2 :: r2 =>
          if c2 = ']' then some (Json.arr [], r2)
          else (parseElems fuel (c2 :: r2)).map (fun p => (Json.arr p.1, p.2))
      else if c = lbrace then
        match skipWs r with
        | [] => none
        | c2 :: r2 =>
          if c2 = rbrace then some (Json.obj [], r2)
          else (parseFields fuel (c2 :: r2)).map (fun p => (Json.obj p.1, p.2))
      else if c = '-' then
        match r with
        | [] => none
        | d :: r2 =>
          if d.isDigit then
            let p := parseDigits r2 (d.toNat - 48)
            some (Json.num (-(p.1 : Int)), p.2)
          else none
      else if c.isDigit then
        let p := parseDigits r (c.toNat - 48)
        some (Json.num (p.1 : Int), p.2)
      else none

/-- Comma-separated array elements, up to and including the closing bracket. -/
def parseElems : Nat → List Char → Option (List Json × List Char)
  | 0, _ => none
  | fuel + 1, cs =>
    match parseVal fuel cs with
    | none => none
    | some (v, r) =>
      match skipWs r with
      | [] => none
      | c :: r2 =>
        if c = ',' then (parseElems fuel r2).map (fun p => (v :: p.1, p.2))
        else if c = ']' then some ([v], r2)
        else none

/-- Comma-separated object members, up to and including the closing brace. -/
def parseFields : Nat → List Char → Option (List (String × Json) × List Char)
  | 0, _ => none
  | fuel + 1, cs =>
    match skipWs cs with
    | [] => none
    | c :: r =>
      if c = '"' then
        match parseStringBody r with
        | none => none
        | some (key, r2) =>
          match skipWs r2 with
          | [] => none
          | c2 :: r3 =>
            if c2 = ':' then
              match parseVal fuel r3 with
              | none => none
              | some (v, r4) =>
                match skipWs r4 with
                | [] => none
                | c3 :: r5 =>
                  if c3 = ',' then
                    (parseFields fuel r5).map
                      (fun p => ((String.mk key, v) :: p.1, p.2))
                  else if c3 = rbrace then some ([(String.mk key, v)], r5)
                  else none
            else none
      else none

end

/-- `JSON.parse` on the integer-numbered JSON fragment: `some` on success,
`none` where `JSON.parse` would throw a `SyntaxError`. -/
def jsonParse (s : String) : Option Json :=
  match parseVal (s.length * 2 + 2) s.data with
  | some (v, r) => if (skipWs r).isEmpty then some v else none
  | none => none

/-- JavaScript truthiness of a JSON value (`null`, `false`, `0`, `""` falsy). -/
def jsTruthyJson : Json → Bool
  | Json.null => false
  | Json.bool b => b
  | Json.num n => n != 0
  | Json.str s => !s.isEmpty
  | Json.arr _ => true
  | Json.obj _ => true

/-- JavaScript property access `v.name` on a parsed JSON value: `none` when the
access throws (`null` receiver), `some none` when it yields `undefined`
(primitive or array receiver, or missing key), `some (some j)` when the object
has the key (last occurrence wins, as in `JSON.parse`). -/
def jsGetField : Json → String → Option (Option Json)
  | Json.null, _ => none
  | Json.obj fields, name => some (fields.reverse.lookup name)
  | _, _ => some none

/-- Worker for `replaceAll`: scans left to right, substituting `rep` for each
occurrence of `pat` and continuing after the replacement, exactly as a
global-flag `String.prototype.replace` does. Fuel is the input length. -/
def replaceAllAux (pat rep : List Char) : Nat → List Char → List Char
  | 0, cs => cs
  | _, [] => []
  | fuel + 1, c :: cs =>
    if !pat.isEmpty && pat.isPrefixOf (c :: cs) then
      rep ++ replaceAllAux pat rep fuel (List.drop pat.length (c :: cs))
    else
      c :: replaceAllAux pat rep fuel cs

/-- JavaScript `s.replace(/pat/g, rep)` for a literal pattern. -/
def replaceAll (s pat rep : String) : String :=
  String.mk (replaceAllAux pat.data rep.data (s.length + 1) s.data)

/-- JavaScript `String.prototype.trim` on the whitespace set this system can
encounter (space, tab, newline, carriage return). -/
def jsTrim (s : String) : String :=
  String.mk ((skipWs (skipWs s.data).reverse).reverse)

/-- The fence-stripping applied to every model response before `JSON.parse`:
`rawText.replace(/```json/g, '').replace(/```/g, '').trim()`. -/
def stripFences (s : String) : String :=
  jsTrim (replaceAll (replaceAll s "```json" "") "```" "")

/-- Escaping of one character under `JSON.stringify`. -/
def escapeJsonChar (c : Char) : String :=
  if c = '"' then "\\\""
  else if c = '\\' then "\\\\"
  else if c = '\n' then "\\n"
  else if c = '\t' then "\\t"
  else if c = '\r' then "\\r"
  else String.mk [c]

/-- String-content escaping under `JSON.stringify`. -/
def escapeJsonString (s : String) : String :=
  String.join (s.data.map escapeJsonChar)

mutual

/-- `JSON.stringify` (compact form, no spacing), as used to embed the test
plan into the synthesis prompt. -/
def jsonSerialize : Json → String
  | Json.null => "null"
  | Json.bool true => "true"
  | Json.bool false => "false"
  | Json.num n => toString n
  | Json.str s => "\"" ++ escapeJsonString s ++ "\""
  | Json.arr xs => "[" ++ serializeElems xs ++ "]"
  | Json.obj fs => String.mk [lbrace] ++ serializeFields fs ++ String.mk [rbrace]

/-- Comma-joined serialization of array elements. -/
def serializeElems : List Json → String
  | [] => ""
  | [x] => jsonSerialize x
  | x :: y :: xs => jsonSerialize x ++ "," ++ serializeElems (y :: xs)

/-- Comma-joined serialization of object members. -/
def serializeFields : List (String × Json) → String
  | [] => ""
  | [(k, v)] => "\"" ++ escapeJsonString k ++ "\":" ++ jsonSerialize v
  | (k, v) :: g :: fs =>
    "\"" ++ escapeJsonString k ++ "\":" ++ jsonSerialize v ++ "," ++
      serializeFields (g :: fs)

end

/-- `JSON.stringify(plan)` interpolated into a template literal: `undefined`
(a failed property access upstream) prints as the string `undefined`. -/
def serializePlanJs : Option Json → String
  | none => "undefined"
  | some j => jsonSerialize j

-- ## Generation Provider (`AI_Provider.generate`, server.js lines 18-39)

/-- The candidate list built by `generate`: the literal
`[preferredModel, "gemini-2.5-flash", "gemini-2.0-flash-exp", "gemini-1.5-pro",
"gemini-1.5-flash"].filter(Boolean)` — `filter(Boolean)` drops `undefined` and
empty strings but keeps duplicates. -/
def modelsToTry (preferredModel : Option String) : List String :=
  ((match preferredModel with
    | some p => [p]
    | none => []) ++
    ["gemini-2.5-flash", "gemini-2.0-flash-exp", "gemini-1.5-pro",
     "gemini-1.5-flash"]).filter (fun s => !s.isEmpty)

/-- Message of the error thrown when every candidate fails — the spec's
`ProviderExhausted`. -/
def providerExhaustedMsg : String := "All AI agents failed to respond."

/-- The `console.warn` line emitted when a candidate fails. -/
def warnMsg (m : String) : String := "⚠️ [AI] Model " ++ m ++ " failed."

/-- An attempt oracle: outcome of the outbound completion request for the
`i`-th attempt against the named model (external collaborator). -/
def GenOracle : Type := Nat → String → Except String String

/-- The `for (const modelName of modelsToTry)` loop: attempts candidates in
order, returning on the first success; on failure logs a warning and moves on;
throws `providerExhaustedMsg` when the list is spent. Returns (result,
attempted models in order, warning log). -/
def generateAux (oracle : GenOracle) : List String → Nat →
    Except String String × List String × List String
  | [], _ => (Except.error providerExhaustedMsg, [], [])
  | m :: ms, i =>
    match oracle i m with
    | Except.ok t => (Except.ok t, [m], [])
    | Except.error _ =>
      let r := generateAux oracle ms (i + 1)
      (r.1, m :: r.2.1, warnMsg m :: r.2.2)

/-- `AI_Provider.generate(prompt, imageParts, preferredModel)`: builds the
candidate list and runs the fallback loop. The prompt and image parts are
carried for signature fidelity; the oracle determines each attempt's outcome. -/
def generate (oracle : GenOracle) (prompt : String) (imageParts : List String)
    (preferredModel : Option String) :
    Except String String × List String × List String :=
  generateAux oracle (modelsToTry preferredModel) 0

-- ## Events observed at the orchestration level

/-- Observable pipeline events: completion of the audit record, and each
provider-level generation call with its call site, preferred model, and
image parts. -/
inductive MEvent where
  | auditCompleted
  | genCall (site : String) (preferred : Option String) (images : List String)
deriving DecidableEq, Repr

/-- Number of generation calls in an event trace. -/
def genCallCount (evs : List MEvent) : Nat :=
  (evs.filter (fun e =>
    match e with
    | MEvent.genCall _ _ _ => true
    | _ => false)).length

-- ## Architect (`ArchitectAgent.createTestPlan`, server.js lines 49-79)

/-- The planning prompt (template literal at server.js lines 52-67). -/
def architectPrompt (device : String) : String :=
  "\n      ROLE: Senior QA Architect.\n      CONTEXT: We are testing a web application on " ++
  device.toUpper ++
  ".\n      INPUT: Screenshot and HTML snippet.\n      \n      TASK: Create a concise Testing Plan (JSON).\n      Identify 4-6 critical user flows or visual elements that MUST be verified based on the UI visible.\n      \n      OUTPUT JSON FORMAT:\n      \x7b\n        \"test_plan\": [\n          \x7b \"id\": 1, \"action\": \"Check Header\", \"expectation\": \"Logo and Nav visible\" \x7d,\n          \x7b \"id\": 2, \"action\": \"Interact with CTA\", \"expectation\": \"Button should be clickable\" \x7d\n        ]\n      \x7d\n    "

/-- The degraded plan returned whenever the `try` block throws:
`[{ id: 0, action: "Fallback Plan", expectation: "Verify Page Load" }]`. -/
def fallbackPlan : Json :=
  Json.arr [Json.obj
    [("id", Json.num 0),
     ("action", Json.str "Fallback Plan"),
     ("expectation", Json.str "Verify Page Load")]]

/-- `ArchitectAgent.createTestPlan`: one provider call (no preferred model),
fence-strip, `JSON.parse`, then `.test_plan` access; any thrown error
(generation exhausted, `SyntaxError` from `JSON.parse`, `TypeError` from a
`null` receiver) is caught and yields `fallbackPlan`. A parse that succeeds
but lacks a `test_plan` key yields `undefined` (`none`) — no shape check
exists. Returns the plan and the generation-call event. -/
def createTestPlan (oracle : GenOracle)
    (htmlSnippet screenshotBase64 device : String) :
    Option Json × List MEvent :=
  let r := (generate oracle (architectPrompt device) [screenshotBase64] none).1
  (match r with
   | Except.error _ => some fallbackPlan
   | Except.ok rawText =>
     let cleanJson := stripFences rawText
     match jsonParse cleanJson with
     | none => some fallbackPlan
     | some v =>
       match jsGetField v "test_plan" with
       | none => some fallbackPlan
       | some f => f,
   [MEvent.genCall "plan" none [screenshotBase64]])

-- ## Executor (`ExecutorAgent.executeAudit`, server.js lines 85-142)

/-- The fixed-shape technical record the Collector produces (spec's
AuditRecord). -/
structure AuditRecord where
  consoleLogs : List String
  networkStatus : Nat
  screenshot : String
  title : String
  htmlSnippet : String
deriving DecidableEq, Repr

/-- Resource/side-effect trace of one `executeAudit` call: whether
`chromium.launch` completed, how many times `browser.close()` ran, which
browser operations were attempted (in order), and the resolved device
emulation settings. -/
structure AuditTrace where
  browserCreated : Bool
  closeCount : Nat
  steps : List String
  viewport : Nat × Nat
  isMobile : Bool
deriving DecidableEq, Repr

/-- Oracle for the browser-automation collaborator: the outcome of each
Playwright operation, plus the page events (console messages as
(type, text), responses as (resolved URL, HTTP status)) delivered to the
listeners during the page's lifetime, and the navigation duration used to
decide the 45-second bound. -/
structure BrowserEnv where
  launchOk : Except String Unit
  newContextOk : Except String Unit
  newPageOk : Except String Unit
  navDurationMs : Nat
  gotoResult : Except String Unit
  consoleMessages : List (String × String)
  responses : List (String × Nat)
  titleResult : Except String String
  screenshotResult : Except String String
  evalResult : Except String String

/-- Modelled from the spec: the `iPhone 12` viewport in the Playwright device
registry (external collaborator data). -/
def iPhone12Viewport : Nat × Nat := (390, 844)

/-- Modelled from the spec: the `iPad Pro 11` viewport in the Playwright
device registry (external collaborator data). -/
def iPadPro11Viewport : Nat × Nat := (834, 1194)

/-- Modelled from the spec: `page.goto(url, { waitUntil: 'networkidle',
timeout: 45000 })` — a navigation taking longer than the timeout bound
rejects with Playwright's timeout error, otherwise the oracle decides. -/
def gotoResultOf (env : BrowserEnv) (timeoutMs : Nat) : Except String Unit :=
  if timeoutMs < env.navDurationMs then
    Except.error ("page.goto: Timeout " ++ toString timeoutMs ++ "ms exceeded")
  else env.gotoResult

/-- The console listener's accumulated log: messages of type `error` or
`warning`, formatted as `[type] text`, in delivery order. -/
def consoleLogsOf (msgs : List (String × String)) : List String :=
  (msgs.filter (fun m => m.1 == "error" || m.1 == "warning")).map
    (fun m => "[" ++ m.1 ++ "] " ++ m.2)

/-- The response listener's body: overwrite the recorded status when the
response's resolved URL equals the navigation URL exactly (string
equality), otherwise leave it. -/
def netStep (url : String) : Nat → String × Nat → Nat :=
  fun acc r => if r.1 = url then r.2 else acc

/-- The response listener's final `networkStatus`: starts at 0 and folds
`netStep` over every delivered response in order; subresource and
redirect-target responses never match. -/
def networkStatusOf (url : String) (responses : List (String × Nat)) : Nat :=
  responses.foldl (netStep url) 0

/-- The prefix `Executor Audit Failed: ` wrapped around any caught error —
the spec's `AuditFailure`. -/
def auditFailMsg (cause : String) : String := "Executor Audit Failed: " ++ cause

/-- The viewport and mobile-emulation flag resolved from `deviceName`
(server.js lines 100-109): desktop 1920×1080 non-mobile, mobile/tablet the
device-registry viewport with the mobile flag set. -/
def deviceProfileOf (deviceName : String) : (Nat × Nat) × Bool :=
  if deviceName = "mobile" then (iPhone12Viewport, true)
  else if deviceName = "tablet" then (iPadPro11Viewport, true)
  else ((1920, 1080), false)

/-- `ExecutorAgent.executeAudit(url, deviceName)`: resolves the device
profile, launches a browser, attaches the two passive listeners, navigates
under the 45-second bound, waits 2 s, captures title / screenshot / first
3000 characters of visible text, and closes the browser; any exception is
caught, the browser is closed if it was created, and an `AuditFailure`
wrapping the cause is thrown. Returns the result and the resource trace. -/
def executeAudit (env : BrowserEnv) (url : String) (deviceName : String) :
    Except String AuditRecord × AuditTrace :=
  let dev : (Nat × Nat) × Bool := deviceProfileOf deviceName
  match env.launchOk with
  | Except.error e =>
    (Except.error (auditFailMsg e),
     ⟨false, 0, ["launch"], dev.1, dev.2⟩)
  | Except.ok _ =>
    match env.newContextOk with
    | Except.error e =>
      (Except.error (auditFailMsg e),
       ⟨true, 1, ["launch", "newContext"], dev.1, dev.2⟩)
    | Except.ok _ =>
      match env.newPageOk with
      | Except.error e =>
        (Except.error (auditFailMsg e),
         ⟨true, 1, ["launch", "newContext", "newPage"], dev.1, dev.2⟩)
      | Except.ok _ =>
        match gotoResultOf env 45000 with
        | Except.error e =>
          (Except.error (auditFailMsg e),
           ⟨true, 1, ["launch", "newContext", "newPage", "goto"], dev.1, dev.2⟩)
        | Except.ok _ =>
          match env.titleResult with
          | Except.error e =>
            (Except.error (auditFailMsg e),
             ⟨true, 1, ["launch", "newContext", "newPage", "goto", "title"],
              dev.1, dev.2⟩)
          | Except.ok title =>
            match env.screenshotResult with
            | Except.error e =>
              (Except.error (auditFailMsg e),
               ⟨true, 1,
                ["launch", "newContext", "newPage", "goto", "title",
                 "screenshot"], dev.1, dev.2⟩)
            | Except.ok shot =>
              match env.evalResult with
              | Except.error e =>
                (Except.error (auditFailMsg e),
                 ⟨true, 1,
                  ["launch", "newContext", "newPage", "goto", "title",
                   "screenshot", "evaluate"], dev.1, dev.2⟩)
              | Except.ok text =>
                (Except.ok
                  { consoleLogs := consoleLogsOf env.consoleMessages,
                    networkStatus := networkStatusOf url env.responses,
                    screenshot := shot,
                    title := title,
                    htmlSnippet := text.take 3000 },
                 ⟨true, 1,
                  ["launch", "newContext", "newPage", "goto", "title",
                   "screenshot", "evaluate"], dev.1, dev.2⟩)

-- ## Designer (`DesignAgent`, server.js lines 147-191)

/-- Oracle for the Figma collaborator: the combined outcome of the metadata
fetch plus `.json()` decode, and the outcome of the thumbnail fetch plus
base64 re-encode. -/
structure FigmaEnv where
  fileResp : Except String Json
  imgFetch : Except String String

/-- `DesignAgent.fetchFigmaImage(token, fileKey)`: returns `null` at once
(zero requests) when either credential is falsy; otherwise fetches file
metadata, follows `thumbnailUrl` when truthy, and re-encodes the image;
every thrown fetch/decode error is caught, yielding `null`. Returns the
image-or-absent result and the number of network requests issued. -/
def fetchFigmaImage (env : FigmaEnv) (token fileKey : Option String) :
    Option String × Nat :=
  if !jsTruthyOpt token || !jsTruthyOpt fileKey then (none, 0)
  else
    match env.fileResp with
    | Except.error _ => (none, 1)
    | Except.ok data =>
      match jsGetField data "thumbnailUrl" with
      | none => (none, 1)
      | some f =>
        match f with
        | none => (none, 1)
        | some u =>
          if jsTruthyJson u then
            match env.imgFetch with
            | Except.error _ => (none, 2)
            | Except.ok b => (some b, 2)
          else (none, 1)

/-- The sentinel returned when no design reference is available — the exact
string at server.js line 174. -/
def compareSentinel : String := "No Figma Design provided for comparison."

/-- The comparison prompt (template literal at server.js lines 177-182). -/
def comparePrompt : String :=
  "\n      ROLE: Lead UI Designer.\n      TASK: Compare the 'Live Implementation' (Image 1) vs 'Figma Design' (Image 2).\n      OUTPUT: A short paragraph describing the visual discrepancies (colors, alignment, missing elements).\n      Be strict but concise.\n    "

/-- `DesignAgent.compare(liveScreenshot, figmaScreenshot)`: returns the
sentinel without any provider call when the reference is falsy; otherwise
issues exactly one provider call (no preferred model) carrying both images,
whose result — success or thrown failure — is the caller's. Returns the
result and the generation-call events. -/
def compare (oracle : GenOracle) (liveScreenshot : String)
    (figmaScreenshot : Option String) : Except String String × List MEvent :=
  match figmaScreenshot with
  | none => (Except.ok compareSentinel, [])
  | some f =>
    if f.isEmpty then (Except.ok compareSentinel, [])
    else
      ((generate oracle comparePrompt [liveScreenshot, f] none).1,
       [MEvent.genCall "compare" none [liveScreenshot, f]])

-- ## Orchestrator (`orchestrator.startMission`, server.js lines 197-248)

/-- The per-mission configuration destructured from the request body. -/
structure MissionConfig where
  url : String
  device : String
  figmaToken : Option String
  figmaFile : Option String
  llmModel : Option String

/-- All collaborator oracles one mission consumes, plus the process-wide
`FIGMA_ACCESS_TOKEN` default. -/
structure MissionEnv where
  browser : BrowserEnv
  envFigmaToken : Option String
  planGen : GenOracle
  figma : FigmaEnv
  compareGen : GenOracle
  synthGen : GenOracle

/-- The externally visible mission result: the parsed synthesis report (kept
whole here; the source spreads its fields with `...finalJson`) extended with
the truncated screenshot preview and the design-fetch status tag. -/
structure MissionResult where
  report : Json
  screenshot_preview : String
  figma_status : String
deriving Repr

/-- The synthesis prompt (template literal at server.js lines 218-237):
embeds the serialized plan twice, the console-error count, the network
status, and the design analysis with `"` manually rewritten to `'`. -/
def finalReportPrompt (plan : Option Json) (audit : AuditRecord)
    (designAnalysis : String) : String :=
  "\n      ROLE: QA Lead.\n      \n      INPUTS:\n      1. Test Plan Generated: " ++
  serializePlanJs plan ++
  "\n      2. Automated Execution Logs: Console Errors: " ++
  toString audit.consoleLogs.length ++ ", Network Status: " ++
  toString audit.networkStatus ++
  "\n      3. Design Analysis: " ++ designAnalysis ++
  "\n      \n      TASK: Generate a Final QA Report JSON.\n      Determine 'status' based on: Status 200? Any Console Errors? Design matches?\n      \n      JSON OUTPUT:\n      \x7b\n        \"status\": \"pass\" | \"fail\" | \"warning\",\n        \"analysis\": \"Summary of the mission.\",\n        \"issues\": [\"List technical or visual issues\"],\n        \"test_plan\": " ++
  serializePlanJs plan ++
  ", \n        \"figma_analysis\": \"" ++
  (if !designAnalysis.isEmpty then replaceAll designAnalysis "\"" "'"
   else "Not compared") ++
  "\"\n      \x7d\n    "

/-- Modelled from the spec: the `SyntaxError` thrown by `JSON.parse` when the
synthesis response is not valid JSON (spec §7's `SynthesisError`); the
JavaScript runtime's message text is summarized by this constant. -/
def synthesisErrorMsg : String := "SynthesisError: final report is not valid JSON"

/-- `orchestrator.startMission(config)`: audit, plan, design fetch + compare,
synthesis, then result composition — strictly sequential; an audit failure
aborts before any generation call; plan degradation never aborts; a compare
or synthesis failure aborts with the thrown error. Returns the result and
the ordered event trace. -/
def startMission (env : MissionEnv) (cfg : MissionConfig) :
    Except String MissionResult × List MEvent :=
  match executeAudit env.browser cfg.url cfg.device with
  | (Except.error e, _) => (Except.error e, [])
  | (Except.ok auditData, _) =>
    let planStage := createTestPlan env.planGen auditData.htmlSnippet
      auditData.screenshot cfg.device
    let figmaAuth := jsOr cfg.figmaToken env.envFigmaToken
    let figmaImage := (fetchFigmaImage env.figma figmaAuth cfg.figmaFile).1
    let compareStage := compare env.compareGen auditData.screenshot figmaImage
    let events := MEvent.auditCompleted :: planStage.2 ++ compareStage.2
    match compareStage.1 with
    | Except.error e => (Except.error e, events)
    | Except.ok designAnalysis =>
      let prompt := finalReportPrompt planStage.1 auditData designAnalysis
      let events2 := events ++
        [MEvent.genCall "synthesis" cfg.llmModel [auditData.screenshot]]
      match (generate env.synthGen prompt [auditData.screenshot]
          cfg.llmModel).1 with
      | Except.error e => (Except.error e, events2)
      | Except.ok finalJsonRaw =>
        match jsonParse (stripFences finalJsonRaw) with
        | none => (Except.error synthesisErrorMsg, events2)
        | some finalJson =>
          (Except.ok
            { report := finalJson,
              screenshot_preview := auditData.screenshot.take 50 ++ "...",
              figma_status :=
                if jsTruthyOpt figmaImage then "success"
                else if jsTruthyOpt cfg.figmaFile then "failed"
                else "skipped" },
           events2)

-- ## Concrete collaborator instances used to exercise the theorems

/-- An always-succeeding attempt oracle. -/
def w1oracle : GenOracle := fun _ _ => Except.ok "y"

/-- An oracle whose first attempt fails and second succeeds. -/
def w2oracle : GenOracle :=
  fun i _ => if i = 1 then Except.ok "hi" else Except.error "boom"

/-- An oracle returning well-formed JSON that lacks the `test_plan` key. -/
def c3oracle : GenOracle :=
  fun _ _ => Except.ok "\x7b\"foo\": 1\x7d"

/-- An oracle returning the spec §8 example plan response. -/
def w3oracle : GenOracle :=
  fun _ _ =>
    Except.ok
      "\x7b\"test_plan\": [\x7b\"id\": 1, \"action\": \"A\", \"expectation\": \"B\"\x7d]\x7d"

/-- A Figma collaborator that fails both requests. -/
def w4env : FigmaEnv :=
  { fileResp := Except.error "down", imgFetch := Except.error "down" }

/-- An always-failing attempt oracle. -/
def c5oracle : GenOracle := fun _ _ => Except.error "x"

/-- A browser run that fails at navigation. -/
def w6env : BrowserEnv :=
  { launchOk := Except.ok (), newContextOk := Except.ok (),
    newPageOk := Except.ok (), navDurationMs := 100,
    gotoResult := Except.error "boom", consoleMessages := [], responses := [],
    titleResult := Except.ok "T", screenshotResult := Except.ok "S",
    evalResult := Except.ok "X" }

/-- A fully successful browser run. -/
def okBrowser : BrowserEnv :=
  { launchOk := Except.ok (), newContextOk := Except.ok (),
    newPageOk := Except.ok (), navDurationMs := 100,
    gotoResult := Except.ok (),
    consoleMessages := [], responses := [("https://a.example/", 200)],
    titleResult := Except.ok "T", screenshotResult := Except.ok "SHOT",
    evalResult := Except.ok "TXT" }

/-- A browser run whose navigation takes 46 seconds. -/
def w8browser : BrowserEnv := { okBrowser with navDurationMs := 46000 }

/-- A mission environment whose navigation times out. -/
def w8env : MissionEnv :=
  { browser := w8browser, envFigmaToken := none,
    planGen := fun _ _ => Except.ok "x", figma := w4env,
    compareGen := fun _ _ => Except.error "unused",
    synthGen := fun _ _ => Except.ok "1" }

/-- The mission configuration for the timeout scenario. -/
def w8cfg : MissionConfig :=
  { url := "https://a.example/", device := "desktop", figmaToken := none,
    figmaFile := none, llmModel := none }

/-- A mission environment in which every stage succeeds. -/
def w9env : MissionEnv :=
  { browser := okBrowser, envFigmaToken := none,
    planGen := fun _ _ => Except.ok "x", figma := w4env,
    compareGen := fun _ _ => Except.error "unused",
    synthGen := fun _ _ => Except.ok "\x7b\"status\": \"pass\"\x7d" }

/-- The mission configuration for the all-success scenario (no design fields). -/
def w9cfg : MissionConfig :=
  { url := "https://a.example/", device := "desktop", figmaToken := none,
    figmaFile := none, llmModel := none }

/-- A mission environment in which every stage succeeds (copy used for the
preferred-model observation). -/
def w10env : MissionEnv :=
  { browser := okBrowser, envFigmaToken := none,
    planGen := fun _ _ => Except.ok "x", figma := w4env,
    compareGen := fun _ _ => Except.error "unused",
    synthGen := fun _ _ => Except.ok "\x7b\"status\": \"pass\"\x7d" }

/-- A mission configuration carrying a preferred model identifier. -/
def w10cfg : MissionConfig :=
  { url := "https://a.example/", device := "desktop", figmaToken := none,
    figmaFile := none, llmModel := some "my-model" }

-- ## Provider fallback-loop lemmas

/-- When every candidate's attempt fails, the loop visits the whole list,
warns once per candidate, and throws the exhaustion error. -/
theorem generateAux_all_fail (oracle : GenOracle) :
    ∀ (l : List String) (i : Nat),
      (∀ j, j < l.length → ∃ e, oracle (i + j) (l.getD j "") = Except.error e) →
      generateAux oracle l i =
        (Except.error providerExhaustedMsg, l, l.map warnMsg) := by
  intro l
  induction l with
  | nil => intro i _; rfl
  | cons m ms ih =>
    intro i h
    obtain ⟨e, he⟩ := h 0 (by simp)
    simp only [Nat.add_zero, List.getD_cons_zero] at he
    have hrec := ih (i + 1) (fun j hj => by
      obtain ⟨e', he'⟩ := h (j + 1) (by simpa using Nat.succ_lt_succ hj)
      exact ⟨e', by simpa [Nat.add_assoc, Nat.add_comm 1 j] using he'⟩)
    simp [generateAux, he, hrec]

/-- When the first `k` attempts fail and the `k`-th (0-based) succeeds with
text `t`, the loop returns `t`, visits exactly the first `k + 1` candidates,
and warns exactly for the first `k`. -/
theorem generateAux_first_success (oracle : GenOracle) :
    ∀ (l : List String) (i k : Nat) (t : String), k < l.length →
      (∀ j, j < k → ∃ e, oracle (i + j) (l.getD j "") = Except.error e) →
      oracle (i + k) (l.getD k "") = Except.ok t →
      generateAux oracle l i =
        (Except.ok t, l.take (k + 1), (l.take k).map warnMsg) := by
  intro l
  induction l with
  | nil => intro i k t hk; exact absurd hk (by simp)
  | cons m ms ih =>
    intro i k t hk hfail hok
    cases k with
    | zero =>
      simp only [Nat.add_zero, List.getD_cons_zero] at hok
      simp [generateAux, hok]
    | succ k' =>
      obtain ⟨e, he⟩ := hfail 0 (Nat.succ_pos k')
      simp only [Nat.add_zero, List.getD_cons_zero] at he
      have hrec := ih (i + 1) k' t (by simpa using Nat.lt_of_succ_lt_succ hk)
        (fun j hj => by
          obtain ⟨e', he'⟩ := hfail (j + 1) (Nat.succ_lt_succ hj)
          exact ⟨e', by simpa [Nat.add_assoc, Nat.add_comm 1 j] using he'⟩)
        (by simpa [Nat.add_assoc, Nat.add_comm 1 k'] using hok)
      simp [generateAux, he, hrec]

/-- The attempted-model trace is always an initial segment of the candidate
list: candidates are tried strictly in order and none is revisited. -/
theorem generateAux_trace_take (oracle : GenOracle) :
    ∀ (l : List String) (i : Nat),
      (generateAux oracle l i).2.1 =
        l.take (generateAux oracle l i).2.1.length := by
  intro l
  induction l with
  | nil => intro i; rfl
  | cons m ms ih =>
    intro i
    simp only [generateAux]
    cases h : oracle i m with
    | ok t => simp
    | error e => simpa using ih (i + 1)

/-- A successful loop result is the text of the first succeeding candidate:
a success at 0-based index `k` means the first `k` attempts failed and the
trace stopped right there. -/
theorem generateAux_ok_characterize (oracle : GenOracle) :
    ∀ (l : List String) (i : Nat) (t : String),
      (generateAux oracle l i).1 = Except.ok t →
      ∃ k, k < l.length ∧ oracle (i + k) (l.getD k "") = Except.ok t ∧
        (∀ j, j < k → ∃ e, oracle (i + j) (l.getD j "") = Except.error e) ∧
        (generateAux oracle l i).2.1 = l.take (k + 1) := by
  intro l
  induction l with
  | nil => intro i t h; exact absurd h (by simp [generateAux])
  | cons m ms ih =>
    intro i t h
    cases hm : oracle i m with
    | ok t' =>
      have ht : t' = t := by simpa [generateAux, hm] using h
      subst ht
      exact ⟨0, by simp, by simpa using hm, fun j hj => absurd hj (by omega),
        by simp [generateAux, hm]⟩
    | error e =>
      have h' : (generateAux oracle ms (i + 1)).1 = Except.ok t := by
        simpa [generateAux, hm] using h
      obtain ⟨k, hk, hok, hfail, htr⟩ := ih (i + 1) t h'
      refine ⟨k + 1, by simpa using Nat.succ_lt_succ hk, ?_, ?_, ?_⟩
      · simpa [Nat.add_assoc, Nat.add_comm 1 k] using hok
      · intro j hj
        cases j with
        | zero => exact ⟨e, by simpa using hm⟩
        | succ j' =>
          obtain ⟨e', he'⟩ := hfail j' (Nat.lt_of_succ_lt_succ hj)
          exact ⟨e', by simpa [Nat.add_assoc, Nat.add_comm 1 j'] using he'⟩
      · have hstep : generateAux oracle (m :: ms) i =
            ((generateAux oracle ms (i + 1)).1,
             m :: (generateAux oracle ms (i + 1)).2.1,
             warnMsg m :: (generateAux oracle ms (i + 1)).2.2) := by
          simp [generateAux, hm]
        rw [hstep]
        simp [htr]

-- ## Claim C1

/-- C1 (counterexample): the claim says the candidate list is built `with
duplicates and empty entries removed`. With the preferred model equal to the
chain's first entry (the control panel's default, `gemini-2.5-flash`), the
built list contains that identifier twice — `.filter(Boolean)` removes empty
entries only — so a duplicate-free list (which would equal the four-element
chain) is not what `generate` builds, and under an all-failing oracle the
same model name is attempted twice. -/
theorem C1_counterexample :
    (modelsToTry (some "gemini-2.5-flash")).count "gemini-2.5-flash" = 2 ∧
    modelsToTry (some "gemini-2.5-flash") ≠
      ["gemini-2.5-flash", "gemini-2.0-flash-exp", "gemini-1.5-pro",
       "gemini-1.5-flash"] ∧
    ((generate c5oracle "p" [] (some "gemini-2.5-flash")).2.1.count
      "gemini-2.5-flash") = 2 := by
  refine ⟨by decide, by decide, by decide⟩

/-- C1 (amended): `generate` builds its candidate list as `preferredModelId`
(if present and non-empty) followed by the fixed priority chain, with empty
entries removed but duplicates retained; it attempts the candidates strictly
in that order (the attempt trace is always an initial segment of the
candidate list), and on success returns the text of the first successful
attempt, the attempts stopping exactly there. -/
theorem C1_generate_candidate_order :
    ∀ (oracle : GenOracle) (prompt : String) (imgs : List String)
      (pref : Option String),
      modelsToTry pref =
        (match pref with
         | some p => if p.isEmpty then [] else [p]
         | none => []) ++ modelsToTry none ∧
      (generate oracle prompt imgs pref).2.1 =
        (modelsToTry pref).take (generate oracle prompt imgs pref).2.1.length ∧
      (∀ t, (generate oracle prompt imgs pref).1 = Except.ok t →
        ∃ k, k < (modelsToTry pref).length ∧
          oracle k ((modelsToTry pref).getD k "") = Except.ok t ∧
          (∀ j, j < k →
            ∃ e, oracle j ((modelsToTry pref).getD j "") = Except.error e) ∧
          (generate oracle prompt imgs pref).2.1 =
            (modelsToTry pref).take (k + 1)) := by
  intro oracle prompt imgs pref
  refine ⟨?_, ?_, ?_⟩
  · cases pref with
    | none => rfl
    | some p =>
      by_cases hp : p.isEmpty <;> simp [modelsToTry, hp]
  · exact generateAux_trace_take oracle (modelsToTry pref) 0
  · intro t h
    obtain ⟨k, hk, hok, hfail, htr⟩ :=
      generateAux_ok_characterize oracle (modelsToTry pref) 0 t h
    exact ⟨k, hk, by simpa using hok,
      fun j hj => by simpa using hfail j hj, htr⟩

/-- C1 (witness): with an oracle succeeding at once and no preferred model,
the first-success characterization yields a concrete index. -/
theorem C1_witness :
    ∃ k, k < (modelsToTry none).length ∧
      w1oracle k ((modelsToTry none).getD k "") = Except.ok "y" ∧
      (∀ j, j < k →
        ∃ e, w1oracle j ((modelsToTry none).getD j "") = Except.error e) ∧
      (generate w1oracle "p" [] none).2.1 = (modelsToTry none).take (k + 1) :=
  (C1_generate_candidate_order w1oracle "p" [] none).2.2 "y" rfl

-- ## Claim C2

/-- C2: with `N` candidates, zero successes means the provider fails with the
exhaustion error after attempting all `N` candidates, warning for each; if
the `k`-th candidate (0-based index `k`, so the `k + 1`-st attempt) is the
first to succeed, the call returns its text, the attempt trace is exactly
the first `k + 1` candidates in list order (so no candidate position is ever
revisited), and exactly the first `k` failures are logged. -/
theorem C2_provider_attempt_counts :
    ∀ (oracle : GenOracle) (prompt : String) (imgs : List String)
      (pref : Option String),
      ((∀ j, j < (modelsToTry pref).length →
          ∃ e, oracle j ((modelsToTry pref).getD j "") = Except.error e) →
        generate oracle prompt imgs pref =
          (Except.error providerExhaustedMsg, modelsToTry pref,
           (modelsToTry pref).map warnMsg)) ∧
      (∀ k t, k < (modelsToTry pref).length →
        (∀ j, j < k →
          ∃ e, oracle j ((modelsToTry pref).getD j "") = Except.error e) →
        oracle k ((modelsToTry pref).getD k "") = Except.ok t →
        generate oracle prompt imgs pref =
          (Except.ok t, (modelsToTry pref).take (k + 1),
           ((modelsToTry pref).take k).map warnMsg)) := by
  intro oracle prompt imgs pref
  constructor
  · intro h
    exact generateAux_all_fail oracle (modelsToTry pref) 0
      (fun j hj => by simpa using h j hj)
  · intro k t hk hfail hok
    exact generateAux_first_success oracle (modelsToTry pref) 0 k t hk
      (fun j hj => by simpa using hfail j hj) (by simpa using hok)

/-- C2 (witness): an oracle failing on attempt 0 and succeeding on attempt 1,
with no preferred model: two attempts, one logged failure, the second
candidate's text returned. -/
theorem C2_witness :
    generate w2oracle "p" [] none =
      (Except.ok "hi", ["gemini-2.5-flash", "gemini-2.0-flash-exp"],
       ["⚠️ [AI] Model gemini-2.5-flash failed."]) := by
  have h := (C2_provider_attempt_counts w2oracle "p" [] none).2 1 "hi"
    (by decide)
    (fun j hj => ⟨"boom", by
      have hj0 : j = 0 := by omega
      subst hj0; rfl⟩)
    rfl
  exact h.trans rfl

-- ## Claim C3

/-- C3 (counterexample): the claim says any response that fails to parse as
the expected shape yields exactly the one-element fallback plan. But the
stage only catches thrown errors: for the generated response
`\x7b"foo": 1\x7d` — valid JSON without the expected `test_plan` array — the
`.test_plan` access yields `undefined`, which the stage returns as-is, not
the fallback plan. -/
theorem C3_counterexample :
    (generate c3oracle (architectPrompt "desktop") ["s"] none).1 =
      Except.ok "\x7b\"foo\": 1\x7d" ∧
    (createTestPlan c3oracle "h" "s" "desktop").1 = none ∧
    (none : Option Json) ≠ some fallbackPlan := by
  exact ⟨rfl, rfl, by simp⟩

/-- C3 (amended): the Plan Generator returns exactly the one-element fallback
plan `[\x7bid: 0, action: "Fallback Plan", expectation: "Verify Page Load"\x7d]`
whenever the generation call fails, the fence-stripped response is not valid
JSON, or it parses to `null` (whose property access throws); when it parses
to any other JSON value, the stage returns that value's `test_plan` property
unvalidated — `undefined` when the property is absent — and never propagates
an error. -/
theorem C3_plan_degrade :
    ∀ (oracle : GenOracle) (h s d : String),
      (∀ e, (generate oracle (architectPrompt d) [s] none).1 = Except.error e →
        (createTestPlan oracle h s d).1 = some fallbackPlan) ∧
      (∀ t, (generate oracle (architectPrompt d) [s] none).1 = Except.ok t →
        jsonParse (stripFences t) = none →
        (createTestPlan oracle h s d).1 = some fallbackPlan) ∧
      (∀ t, (generate oracle (architectPrompt d) [s] none).1 = Except.ok t →
        jsonParse (stripFences t) = some Json.null →
        (createTestPlan oracle h s d).1 = some fallbackPlan) ∧
      (∀ t v f, (generate oracle (architectPrompt d) [s] none).1 = Except.ok t →
        jsonParse (stripFences t) = some v →
        jsGetField v "test_plan" = some f →
        (createTestPlan oracle h s d).1 = f) := by
  intro oracle h s d
  refine ⟨?_, ?_, ?_, ?_⟩
  · intro e he; simp [createTestPlan, he]
  · intro t ht hp; simp [createTestPlan, ht, hp]
  · intro t ht hp; simp [createTestPlan, ht, hp, jsGetField]
  · intro t v f ht hp hf; simp [createTestPlan, ht, hp, hf]

/-- C3 (witness): the spec §8 example — a response carrying a one-element
`test_plan` array — comes back exactly as that array. -/
theorem C3_witness :
    (createTestPlan w3oracle "h" "s" "desktop").1 =
      some (Json.arr [Json.obj
        [("id", Json.num 1), ("action", Json.str "A"),
         ("expectation", Json.str "B")]]) := by
  exact (C3_plan_degrade w3oracle "h" "s" "desktop").2.2.2 _ _ _ rfl rfl rfl

-- ## Claim C4

/-- C4: `fetchFigmaImage` returns absent immediately with zero network
requests when either credential is falsy (empty or unset); and whenever the
metadata fetch/decode or the thumbnail fetch fails, the thrown error is
absorbed and the result is absent rather than a failure. -/
theorem C4_fetch_reference_guards :
    ∀ (env : FigmaEnv) (token fileKey : Option String),
      ((jsTruthyOpt token = false ∨ jsTruthyOpt fileKey = false) →
        fetchFigmaImage env token fileKey = (none, 0)) ∧
      (∀ e, env.fileResp = Except.error e →
        (fetchFigmaImage env token fileKey).1 = none) ∧
      (∀ e, env.imgFetch = Except.error e →
        (fetchFigmaImage env token fileKey).1 = none) := by
  intro env token fileKey
  refine ⟨?_, ?_, ?_⟩
  · intro h
    rcases h with h | h <;> simp [fetchFigmaImage, h]
  · intro e he
    by_cases ht : jsTruthyOpt token <;> by_cases hk : jsTruthyOpt fileKey <;>
      simp [fetchFigmaImage, ht, hk, he]
  · intro e he
    by_cases ht : jsTruthyOpt token
    · by_cases hk : jsTruthyOpt fileKey
      · cases hfr : env.fileResp with
        | error e2 => simp [fetchFigmaImage, ht, hk, hfr]
        | ok data =>
          cases hgf : jsGetField data "thumbnailUrl" with
          | none => simp [fetchFigmaImage, ht, hk, hfr, hgf]
          | some f =>
            cases f with
            | none => simp [fetchFigmaImage, ht, hk, hfr, hgf]
            | some u =>
              by_cases hu : jsTruthyJson u
              · simp [fetchFigmaImage, ht, hk, hfr, hgf, hu, he]
              · simp [fetchFigmaImage, ht, hk, hfr, hgf, hu]
      · simp [fetchFigmaImage, ht, hk]
    · simp [fetchFigmaImage, ht]

/-- C4 (witness): both spec §8 probes — empty token with a key, and a token
with an empty key — return absent with zero network calls; and a concrete
failing metadata fetch also yields absent. -/
theorem C4_witness :
    fetchFigmaImage w4env (some "") (some "key") = (none, 0) ∧
    fetchFigmaImage w4env (some "token") (some "") = (none, 0) ∧
    (fetchFigmaImage w4env (some "token") (some "key")).1 = none := by
  refine ⟨?_, ?_, ?_⟩
  · exact (C4_fetch_reference_guards w4env (some "") (some "key")).1
      (Or.inl (by decide))
  · exact (C4_fetch_reference_guards w4env (some "token") (some "")).1
      (Or.inr (by decide))
  · exact (C4_fetch_reference_guards w4env (some "token") (some "key")).2.1
      "down" rfl

-- ## Claim C5

/-- C5 (counterexample): the claim pins the sentinel to the exact string
`no design provided for comparison`; the code's sentinel is
`No Figma Design provided for comparison.` — a different string — so the
claim as stated is false on the absent-reference path. -/
theorem C5_counterexample :
    (compare c5oracle "live" none).1 =
      Except.ok "No Figma Design provided for comparison." ∧
    "No Figma Design provided for comparison." ≠
      "no design provided for comparison" := by
  exact ⟨rfl, by decide⟩

/-- C5 (amended): with the reference absent (null or empty), `compare`
returns the fixed sentinel `No Figma Design provided for comparison.` and
issues zero generation calls; with a (truthy) reference present, exactly one
provider-level generation call carrying both images is issued, and its
result — the discrepancy text or the thrown failure — is returned to the
caller unchanged. -/
theorem C5_compare_guard :
    ∀ (oracle : GenOracle) (live : String) (fig : Option String),
      compareSentinel = "No Figma Design provided for comparison." ∧
      (jsTruthyOpt fig = false →
        compare oracle live fig = (Except.ok compareSentinel, [])) ∧
      (∀ f, fig = some f → f.isEmpty = false →
        compare oracle live fig =
          ((generate oracle comparePrompt [live, f] none).1,
           [MEvent.genCall "compare" none [live, f]])) := by
  intro oracle live fig
  refine ⟨rfl, ?_, ?_⟩
  · intro h
    cases fig with
    | none => rfl
    | some f =>
      have hf : f.isEmpty = true := by simpa [jsTruthyOpt] using h
      simp [compare, hf]
  · intro f hfig hne
    subst hfig
    simp [compare, hne]

/-- C5 (witness): the absent path at a concrete live image returns the
sentinel with an empty event list, and a concrete present reference issues
exactly the one two-image call. -/
theorem C5_witness :
    compare c5oracle "live" none = (Except.ok compareSentinel, []) ∧
    compare c5oracle "live" (some "FIG") =
      ((generate c5oracle comparePrompt ["live", "FIG"] none).1,
       [MEvent.genCall "compare" none ["live", "FIG"]]) := by
  exact ⟨(C5_compare_guard c5oracle "live" none).2.1 rfl,
    (C5_compare_guard c5oracle "live" (some "FIG")).2.2 "FIG" rfl rfl⟩

-- ## Claim C6

/-- C6: on every exit path of `executeAudit` — success or an exception at any
step — the browser is closed exactly once whenever it was created (and never
touched when `chromium.launch` itself failed); every failure surfaces as an
`AuditFailure` wrapping the underlying cause; and no browser operation is
ever attempted twice (the step trace is duplicate-free), so nothing is
retried. -/
theorem C6_audit_session_release :
    ∀ (env : BrowserEnv) (url dev : String),
      ((executeAudit env url dev).2.browserCreated = true →
        (executeAudit env url dev).2.closeCount = 1) ∧
      ((executeAudit env url dev).2.browserCreated = false →
        (executeAudit env url dev).2.closeCount = 0) ∧
      (∀ m, (executeAudit env url dev).1 = Except.error m →
        ∃ cause, m = auditFailMsg cause) ∧
      (executeAudit env url dev).2.steps.Nodup := by
  intro env url dev
  obtain ⟨lk, nc, np, nd, gt, cm, rs, tt, ss, ev⟩ := env
  simp only [executeAudit, gotoResultOf]
  cases lk with
  | error e =>
    exact ⟨fun h => Bool.noConfusion h, fun _ => rfl,
      fun m hm => by injection hm with h2; exact ⟨_, h2.symm⟩,
      by show List.Nodup ["launch"]; decide⟩
  | ok u1 =>
  cases nc with
  | error e =>
    exact ⟨fun _ => rfl, fun h => Bool.noConfusion h,
      fun m hm => by injection hm with h2; exact ⟨_, h2.symm⟩,
      by show List.Nodup ["launch", "newContext"]; decide⟩
  | ok u2 =>
  cases np with
  | error e =>
    exact ⟨fun _ => rfl, fun h => Bool.noConfusion h,
      fun m hm => by injection hm with h2; exact ⟨_, h2.symm⟩,
      by show List.Nodup ["launch", "newContext", "newPage"]; decide⟩
  | ok u3 =>
  by_cases hnd : 45000 < nd
  · rw [if_pos hnd]
    exact ⟨fun _ => rfl, fun h => Bool.noConfusion h,
      fun m hm => by injection hm with h2; exact ⟨_, h2.symm⟩,
      by show List.Nodup ["launch", "newContext", "newPage", "goto"]; decide⟩
  · rw [if_neg hnd]
    cases gt with
    | error e =>
      exact ⟨fun _ => rfl, fun h => Bool.noConfusion h,
        fun m hm => by injection hm with h2; exact ⟨_, h2.symm⟩,
        by show List.Nodup ["launch", "newContext", "newPage", "goto"]; decide⟩
    | ok u4 =>
    cases tt with
    | error e =>
      exact ⟨fun _ => rfl, fun h => Bool.noConfusion h,
        fun m hm => by injection hm with h2; exact ⟨_, h2.symm⟩,
        by show List.Nodup ["launch", "newContext", "newPage", "goto", "title"]; decide⟩
    | ok t =>
    cases ss with
    | error e =>
      exact ⟨fun _ => rfl, fun h => Bool.noConfusion h,
        fun m hm => by injection hm with h2; exact ⟨_, h2.symm⟩,
        by show List.Nodup ["launch", "newContext", "newPage", "goto", "title", "screenshot"]; decide⟩
    | ok sh =>
    cases ev with
    | error e =>
      exact ⟨fun _ => rfl, fun h => Bool.noConfusion h,
        fun m hm => by injection hm with h2; exact ⟨_, h2.symm⟩,
        by show List.Nodup ["launch", "newContext", "newPage", "goto", "title", "screenshot", "evaluate"]; decide⟩
    | ok tx =>
      exact ⟨fun _ => rfl, fun h => Bool.noConfusion h,
        fun m hm => Except.noConfusion hm,
        by show List.Nodup ["launch", "newContext", "newPage", "goto", "title", "screenshot", "evaluate"]; decide⟩

/-- C6 (witness): a navigation failure after the browser was created —
the browser is closed once and the failure is an `AuditFailure`. -/
theorem C6_witness :
    (executeAudit w6env "u" "desktop").2.closeCount = 1 ∧
    (∃ cause, "Executor Audit Failed: boom" = auditFailMsg cause) := by
  exact ⟨(C6_audit_session_release w6env "u" "desktop").1 rfl,
    (C6_audit_session_release w6env "u" "desktop").2.2.1
      "Executor Audit Failed: boom" rfl⟩

-- ## Claim C7

/-- A fold over responses none of which matches the navigation URL leaves the
accumulator untouched. -/
theorem netFold_no_match (url : String) :
    ∀ (rs : List (String × Nat)) (acc : Nat),
      (∀ r ∈ rs, r.1 ≠ url) → rs.foldl (netStep url) acc = acc := by
  intro rs
  induction rs with
  | nil => intro acc _; rfl
  | cons r rest ih =>
    intro acc h
    have hr : r.1 ≠ url := h r (by simp)
    simp only [List.foldl_cons, netStep, if_neg hr]
    exact ih acc (fun r' hr' => h r' (by simp [hr']))

/-- Non-matching responses are invisible to the fold: filtering them away
first changes nothing. -/
theorem netFold_filter (url : String) :
    ∀ (rs : List (String × Nat)) (acc : Nat),
      rs.foldl (netStep url) acc =
        (rs.filter (fun r => r.1 == url)).foldl (netStep url) acc := by
  intro rs
  induction rs with
  | nil => intro acc; rfl
  | cons r rest ih =>
    intro acc
    by_cases hr : r.1 = url
    · simp [List.foldl_cons, List.filter_cons, hr, ih]
    · simp [List.foldl_cons, List.filter_cons, hr, netStep, ih]

/-- The fold's result is either the untouched accumulator or the status of
some response whose URL matches the navigation URL exactly. -/
theorem netFold_mem (url : String) :
    ∀ (rs : List (String × Nat)) (acc : Nat),
      rs.foldl (netStep url) acc = acc ∨
        ∃ r ∈ rs, r.1 = url ∧ rs.foldl (netStep url) acc = r.2 := by
  intro rs
  induction rs with
  | nil => intro acc; exact Or.inl rfl
  | cons r rest ih =>
    intro acc
    by_cases hr : r.1 = url
    · rcases ih r.2 with h | ⟨r', hr', hmatch, hval⟩
      · exact Or.inr ⟨r, by simp, hr, by simp [List.foldl_cons, netStep, hr, h]⟩
      · exact Or.inr ⟨r', by simp [hr'], hmatch,
          by simp [List.foldl_cons, netStep, hr, hval]⟩
    · rcases ih acc with h | ⟨r', hr', hmatch, hval⟩
      · exact Or.inl (by simp [List.foldl_cons, netStep, hr, h])
      · exact Or.inr ⟨r', by simp [hr'], hmatch,
          by simp [List.foldl_cons, netStep, hr, hval]⟩

/-- C7: `networkStatus` is set only by responses whose resolved URL equals
the navigation URL by exact string equality — if no response matches
exactly (a redirecting target, for instance), it stays at its default 0;
subresource (non-matching) responses are invisible to the result; any
non-zero value is the status of an exactly-matching response; and a
successful audit record carries precisely this fold of the delivered
responses. -/
theorem C7_network_status_matching :
    ∀ (url : String) (rs : List (String × Nat)),
      ((∀ r ∈ rs, r.1 ≠ url) → networkStatusOf url rs = 0) ∧
      networkStatusOf url rs =
        networkStatusOf url (rs.filter (fun r => r.1 == url)) ∧
      (networkStatusOf url rs ≠ 0 →
        ∃ r ∈ rs, r.1 = url ∧ r.2 = networkStatusOf url rs) ∧
      (∀ (env : BrowserEnv) (dev : String) (rec : AuditRecord)
          (tr : AuditTrace),
        executeAudit env url dev = (Except.ok rec, tr) →
        rec.networkStatus = networkStatusOf url env.responses) := by
  intro url rs
  refine ⟨?_, ?_, ?_, ?_⟩
  · intro h
    exact netFold_no_match url rs 0 h
  · exact netFold_filter url rs 0
  · intro h
    rcases netFold_mem url rs 0 with h0 | ⟨r, hr, hmatch, hval⟩
    · exact absurd h0 h
    · exact ⟨r, hr, hmatch, hval.symm⟩
  · intro env dev rec tr h
    obtain ⟨lk, nc, np, nd, gt, cm, rsx, tt, ss, ev⟩ := env
    simp only [executeAudit, gotoResultOf] at h
    cases lk with
    | error e => simp at h
    | ok u1 =>
    cases nc with
    | error e => simp at h
    | ok u2 =>
    cases np with
    | error e => simp at h
    | ok u3 =>
    by_cases hnd : 45000 < nd
    · rw [if_pos hnd] at h
      simp at h
    · rw [if_neg hnd] at h
      cases gt with
      | error e => simp at h
      | ok u4 =>
      cases tt with
      | error e => simp at h
      | ok t =>
      cases ss with
      | error e => simp at h
      | ok sh =>
      cases ev with
      | error e => simp at h
      | ok tx =>
        have h1 := congrArg Prod.fst h
        injection h1 with h2
        rw [← h2]

/-- C7 (witness): a redirecting navigation — the only delivered response has
the redirect target's URL, not the navigation URL — leaves `networkStatus`
at 0; and a successful concrete audit records the status of the exactly
matching response. -/
theorem C7_witness :
    networkStatusOf "https://t.example/" [("https://t.example/landing", 301)] = 0 ∧
    (∀ rec tr, executeAudit okBrowser "https://a.example/" "desktop" =
        (Except.ok rec, tr) →
      rec.networkStatus =
        networkStatusOf "https://a.example/" okBrowser.responses) := by
  refine ⟨?_, ?_⟩
  · exact (C7_network_status_matching "https://t.example/"
      [("https://t.example/landing", 301)]).1 (by decide)
  · intro rec tr h
    exact (C7_network_status_matching "https://a.example/" []).2.2.2
      okBrowser "desktop" rec tr h

-- ## Orchestrator lemmas

/-- When the audit fails, the mission returns that failure at once with an
empty event trace. -/
theorem startMission_audit_error (env : MissionEnv) (cfg : MissionConfig)
    (e : String)
    (h : (executeAudit env.browser cfg.url cfg.device).1 = Except.error e) :
    startMission env cfg = (Except.error e, []) := by
  rcases hEA : executeAudit env.browser cfg.url cfg.device with ⟨res, tr⟩
  rw [hEA] at h
  simp only [] at h
  subst h
  simp [startMission, hEA]

/-- A navigation exceeding the 45-second bound (with the session set-up steps
succeeding) makes the audit fail with the Playwright timeout message wrapped
as an `AuditFailure`. -/
theorem executeAudit_timeout (env : BrowserEnv) (url dev : String)
    (h1 : env.launchOk = Except.ok ()) (h2 : env.newContextOk = Except.ok ())
    (h3 : env.newPageOk = Except.ok ())
    (hnd : 45000 < env.navDurationMs) :
    (executeAudit env url dev).1 =
      Except.error (auditFailMsg "page.goto: Timeout 45000ms exceeded") := by
  obtain ⟨lk, nc, np, nd, gt, cm, rs, tt, ss, ev⟩ := env
  simp only [] at h1 h2 h3 hnd
  subst h1 h2 h3
  simp only [executeAudit, gotoResultOf, if_pos hnd]
  rfl

/-- Every event the comparison stage emits is a `compare`-site generation
call with no preferred model. -/
theorem compare_events_shape (oracle : GenOracle) (live : String)
    (fig : Option String) :
    ∀ e ∈ (compare oracle live fig).2,
      ∃ i, e = MEvent.genCall "compare" none i := by
  intro e he
  cases fig with
  | none => simp [compare] at he
  | some f =>
    by_cases hf : f.isEmpty
    · simp [compare, hf] at he
    · simp [compare, hf] at he
      exact ⟨_, he⟩

/-- After a successful audit, the mission trace is the audit-completion event
followed only by generation-call events: the plan and compare calls carry no
preferred model, and the synthesis call carries the mission's `llmModel`. -/
theorem startMission_trace_shape (env : MissionEnv) (cfg : MissionConfig)
    (rec : AuditRecord) (tr : AuditTrace)
    (hEA : executeAudit env.browser cfg.url cfg.device = (Except.ok rec, tr)) :
    ∃ rest, (startMission env cfg).2 = MEvent.auditCompleted :: rest ∧
      ∀ e ∈ rest, ∃ s p i, e = MEvent.genCall s p i ∧
        ((s = "plan" ∧ p = none) ∨ (s = "compare" ∧ p = none) ∨
         (s = "synthesis" ∧ p = cfg.llmModel)) := by
  have hplan : ∀ e ∈ (createTestPlan env.planGen rec.htmlSnippet
      rec.screenshot cfg.device).2, e = MEvent.genCall "plan" none
        [rec.screenshot] := by
    intro e he
    simpa [createTestPlan] using he
  have hcmp := compare_events_shape env.compareGen rec.screenshot
    ((fetchFigmaImage env.figma (jsOr cfg.figmaToken env.envFigmaToken)
      cfg.figmaFile).1)
  rcases hcp : compare env.compareGen rec.screenshot
      ((fetchFigmaImage env.figma (jsOr cfg.figmaToken env.envFigmaToken)
        cfg.figmaFile).1) with ⟨cres, cevs⟩
  rw [hcp] at hcmp
  cases cres with
  | error ce =>
    simp only [startMission, hEA, hcp]
    refine ⟨_, rfl, ?_⟩
    intro e he
    rcases List.mem_append.mp he with hp | hcm
    · exact ⟨"plan", none, [rec.screenshot], hplan e hp, Or.inl ⟨rfl, rfl⟩⟩
    · obtain ⟨i, hi⟩ := hcmp e hcm
      exact ⟨"compare", none, i, hi, Or.inr (Or.inl ⟨rfl, rfl⟩)⟩
  | ok da =>
    rcases hgen : generateAux env.synthGen (modelsToTry cfg.llmModel) 0
      with ⟨gres, gtr⟩
    cases gres with
    | error ge =>
      simp only [startMission, hEA, hcp, generate, hgen]
      refine ⟨_, rfl, ?_⟩
      intro e he
      rcases List.mem_append.mp he with hpc | hs
      · rcases List.mem_append.mp hpc with hp | hcm
        · exact ⟨"plan", none, [rec.screenshot], hplan e hp, Or.inl ⟨rfl, rfl⟩⟩
        · obtain ⟨i, hi⟩ := hcmp e hcm
          exact ⟨"compare", none, i, hi, Or.inr (Or.inl ⟨rfl, rfl⟩)⟩
      · have he2 : e = MEvent.genCall "synthesis" cfg.llmModel
            [rec.screenshot] := by simpa using hs
        exact ⟨"synthesis", cfg.llmModel, [rec.screenshot], he2,
          Or.inr (Or.inr ⟨rfl, rfl⟩)⟩
    | ok raw =>
      rcases hj : jsonParse (stripFences raw) with _ | fj
      · simp only [startMission, hEA, hcp, generate, hgen, hj]
        refine ⟨_, rfl, ?_⟩
        intro e he
        rcases List.mem_append.mp he with hpc | hs
        · rcases List.mem_append.mp hpc with hp | hcm
          · exact ⟨"plan", none, [rec.screenshot], hplan e hp,
              Or.inl ⟨rfl, rfl⟩⟩
          · obtain ⟨i, hi⟩ := hcmp e hcm
            exact ⟨"compare", none, i, hi, Or.inr (Or.inl ⟨rfl, rfl⟩)⟩
        · have he2 : e = MEvent.genCall "synthesis" cfg.llmModel
              [rec.screenshot] := by simpa using hs
          exact ⟨"synthesis", cfg.llmModel, [rec.screenshot], he2,
            Or.inr (Or.inr ⟨rfl, rfl⟩)⟩
      · simp only [startMission, hEA, hcp, generate, hgen, hj]
        refine ⟨_, rfl, ?_⟩
        intro e he
        rcases List.mem_append.mp he with hpc | hs
        · rcases List.mem_append.mp hpc with hp | hcm
          · exact ⟨"plan", none, [rec.screenshot], hplan e hp,
              Or.inl ⟨rfl, rfl⟩⟩
          · obtain ⟨i, hi⟩ := hcmp e hcm
            exact ⟨"compare", none, i, hi, Or.inr (Or.inl ⟨rfl, rfl⟩)⟩
        · have he2 : e = MEvent.genCall "synthesis" cfg.llmModel
              [rec.screenshot] := by simpa using hs
          exact ⟨"synthesis", cfg.llmModel, [rec.screenshot], he2,
            Or.inr (Or.inr ⟨rfl, rfl⟩)⟩

-- ## Claim C8

/-- C8: every mission either completes its audit record before any
generation call — the trace starts with the audit-completion event, followed
only by generation calls — or fails first with the `AuditFailure` and an
empty trace (zero generation calls); in particular a navigation exceeding
the 45-second bound fails the mission with the timeout message wrapped as an
`AuditFailure`, with zero generation calls made. -/
theorem C8_audit_before_generation :
    ∀ (env : MissionEnv) (cfg : MissionConfig),
      (∀ e, (executeAudit env.browser cfg.url cfg.device).1 = Except.error e →
        startMission env cfg = (Except.error e, []) ∧
        genCallCount (startMission env cfg).2 = 0) ∧
      (env.browser.launchOk = Except.ok () →
        env.browser.newContextOk = Except.ok () →
        env.browser.newPageOk = Except.ok () →
        45000 < env.browser.navDurationMs →
        startMission env cfg =
          (Except.error (auditFailMsg "page.goto: Timeout 45000ms exceeded"),
           []) ∧
        genCallCount (startMission env cfg).2 = 0) ∧
      ((startMission env cfg).2 = [] ∨
        ∃ rest, (startMission env cfg).2 = MEvent.auditCompleted :: rest ∧
          MEvent.auditCompleted ∉ rest) := by
  intro env cfg
  refine ⟨?_, ?_, ?_⟩
  · intro e he
    have h := startMission_audit_error env cfg e he
    exact ⟨h, by rw [h]; rfl⟩
  · intro h1 h2 h3 hnd
    have he := executeAudit_timeout env.browser cfg.url cfg.device h1 h2 h3 hnd
    have h := startMission_audit_error env cfg _ he
    exact ⟨h, by rw [h]; rfl⟩
  · rcases hEA : executeAudit env.browser cfg.url cfg.device with ⟨res, tr⟩
    cases res with
    | error e =>
      left
      rw [startMission_audit_error env cfg e (by rw [hEA])]
    | ok rec =>
      right
      obtain ⟨rest, hr, hall⟩ := startMission_trace_shape env cfg rec tr hEA
      refine ⟨rest, hr, ?_⟩
      intro hmem
      obtain ⟨s, p, i, heq, _⟩ := hall _ hmem
      exact MEvent.noConfusion heq

/-- C8 (witness): the 46-second navigation — mission fails with the wrapped
timeout message, empty trace, zero generation calls. -/
theorem C8_witness :
    startMission w8env w8cfg =
      (Except.error (auditFailMsg "page.goto: Timeout 45000ms exceeded"),
       []) ∧
    genCallCount (startMission w8env w8cfg).2 = 0 :=
  (C8_audit_before_generation w8env w8cfg).2.1 rfl rfl rfl (by decide)

-- ## Claim C9

/-- C9: every mission reaching Done returns the parsed synthesis report
extended with a screenshot preview equal to the first 50 characters of the
audit screenshot followed by an ellipsis, and a design-fetch status tag that
is `skipped` when no (truthy) file key was supplied, `failed` when a file
key was supplied but no (truthy) reference image resulted, and `success`
otherwise. -/
theorem C9_done_composition :
    ∀ (env : MissionEnv) (cfg : MissionConfig) (r : MissionResult)
      (evs : List MEvent),
      startMission env cfg = (Except.ok r, evs) →
      ∃ rec tr raw,
        executeAudit env.browser cfg.url cfg.device = (Except.ok rec, tr) ∧
        (generateAux env.synthGen (modelsToTry cfg.llmModel) 0).1 =
          Except.ok raw ∧
        jsonParse (stripFences raw) = some r.report ∧
        r.screenshot_preview = rec.screenshot.take 50 ++ "..." ∧
        r.figma_status =
          (if jsTruthyOpt (fetchFigmaImage env.figma
              (jsOr cfg.figmaToken env.envFigmaToken) cfg.figmaFile).1 then
            "success"
          else if jsTruthyOpt cfg.figmaFile then "failed"
          else "skipped") := by
  intro env cfg r evs h
  rcases hEA : executeAudit env.browser cfg.url cfg.device with ⟨res, tr⟩
  cases res with
  | error e =>
    rw [startMission_audit_error env cfg e (by rw [hEA])] at h
    exact absurd (congrArg Prod.fst h) (by simp)
  | ok rec =>
    rcases hcp : compare env.compareGen rec.screenshot
        ((fetchFigmaImage env.figma (jsOr cfg.figmaToken env.envFigmaToken)
          cfg.figmaFile).1) with ⟨cres, cevs⟩
    cases cres with
    | error ce =>
      simp only [startMission, hEA, hcp] at h
      exact absurd (congrArg Prod.fst h) (by simp)
    | ok da =>
      rcases hgen : generateAux env.synthGen (modelsToTry cfg.llmModel) 0
        with ⟨gres, gtr⟩
      cases gres with
      | error ge =>
        simp only [startMission, hEA, hcp, generate, hgen] at h
        exact absurd (congrArg Prod.fst h) (by simp)
      | ok raw =>
        rcases hj : jsonParse (stripFences raw) with _ | fj
        · simp only [startMission, hEA, hcp, generate, hgen, hj] at h
          exact absurd (congrArg Prod.fst h) (by simp)
        · simp only [startMission, hEA, hcp, generate, hgen, hj] at h
          have h1 := congrArg Prod.fst h
          injection h1 with h2
          refine ⟨rec, tr, raw, rfl, rfl, ?_, ?_, ?_⟩
          · rw [← h2]; exact hj
          · rw [← h2]
          · rw [← h2]

/-- C9 (witness): a concrete all-success mission with no design fields —
the report is the parsed synthesis response, the preview is the whole short
screenshot plus ellipsis, and the status tag is `skipped`. -/
theorem C9_witness :
    ∃ rec tr raw,
      executeAudit w9env.browser w9cfg.url w9cfg.device =
        (Except.ok rec, tr) ∧
      (generateAux w9env.synthGen (modelsToTry w9cfg.llmModel) 0).1 =
        Except.ok raw ∧
      jsonParse (stripFences raw) =
        some (Json.obj [("status", Json.str "pass")]) ∧
      "SHOT..." = rec.screenshot.take 50 ++ "..." ∧
      "skipped" =
        (if jsTruthyOpt (fetchFigmaImage w9env.figma
            (jsOr w9cfg.figmaToken w9env.envFigmaToken) w9cfg.figmaFile).1 then
          "success"
        else if jsTruthyOpt w9cfg.figmaFile then "failed"
        else "skipped") :=
  C9_done_composition w9env w9cfg
    ⟨Json.obj [("status", Json.str "pass")], "SHOT...", "skipped"⟩
    [MEvent.auditCompleted, MEvent.genCall "plan" none ["SHOT"],
     MEvent.genCall "synthesis" none ["SHOT"]] rfl

-- ## Claim C10

/-- C10: every generation call a mission issues is either the synthesis call,
which carries the mission's configured `llmModel` as the preferred model, or
a Plan Generator / Design Comparator call, which carries no preferred model —
so those two stages' candidate lists are exactly the fixed fallback chain
regardless of the mission's configured model. -/
theorem C10_preferred_model_only_synthesis :
    ∀ (env : MissionEnv) (cfg : MissionConfig) (site : String)
      (pref : Option String) (imgs : List String),
      MEvent.genCall site pref imgs ∈ (startMission env cfg).2 →
      ((site = "synthesis" ∧ pref = cfg.llmModel) ∨
       ((site = "plan" ∨ site = "compare") ∧ pref = none)) ∧
      modelsToTry none =
        ["gemini-2.5-flash", "gemini-2.0-flash-exp", "gemini-1.5-pro",
         "gemini-1.5-flash"] := by
  intro env cfg site pref imgs hmem
  refine ⟨?_, by decide⟩
  rcases hEA : executeAudit env.browser cfg.url cfg.device with ⟨res, tr⟩
  cases res with
  | error e =>
    rw [startMission_audit_error env cfg e (by rw [hEA])] at hmem
    simp at hmem
  | ok rec =>
    obtain ⟨rest, hr, hall⟩ := startMission_trace_shape env cfg rec tr hEA
    rw [hr] at hmem
    rcases List.mem_cons.mp hmem with hhd | htl
    · exact absurd hhd (by simp)
    · obtain ⟨s, p, i, heq, hc⟩ := hall _ htl
      injection heq with hs hp hi
      subst hs
      subst hp
      rcases hc with ⟨ha, hb⟩ | ⟨ha, hb⟩ | ⟨ha, hb⟩
      · exact Or.inr ⟨Or.inl ha, hb⟩
      · exact Or.inr ⟨Or.inr ha, hb⟩
      · exact Or.inl ⟨ha, hb⟩

/-- C10 (witness): in a concrete all-success mission configured with a
preferred model, the synthesis call in the trace carries exactly that
model. -/
theorem C10_witness :
    (("synthesis" = "synthesis" ∧
      (some "my-model" : Option String) = w10cfg.llmModel) ∨
     (("synthesis" = "plan" ∨ "synthesis" = "compare") ∧
      (some "my-model" : Option String) = none)) ∧
    modelsToTry none =
      ["gemini-2.5-flash", "gemini-2.0-flash-exp", "gemini-1.5-pro",
       "gemini-1.5-flash"] :=
  C10_preferred_model_only_synthesis w10env w10cfg "synthesis"
    (some "my-model") ["SHOT"]
    (by
      rw [show (startMission w10env w10cfg).2 =
        [MEvent.auditCompleted, MEvent.genCall "plan" none ["SHOT"],
         MEvent.genCall "synthesis" (some "my-model") ["SHOT"]] from rfl]
      simp)

end AutoQA
